import Mathlib

/-!
# Verification of the adaptive btrfs SMR balance scheduler

Shallow embedding of `btrfs-smr-balance.py`: an adaptive control loop that
rebalances a multi-device btrfs filesystem backed by DM-SMR drives.  The
external collaborators (`btrfs fi show`, `btrfs balance start`, `psutil`,
wall-clock timing) are modelled as oracle inputs; the decision logic —
device selection, the convergence test on the sample standard deviation of
unallocated space, the Fibonacci backoff policy, and the main loop's
control flow — is translated directly from the source.
-/

namespace SmrBalance

/-- Configuration constant `CHUNK_TIMEOUT = 60` (seconds) from the source. -/
def CHUNK_TIMEOUT : ℚ := 60

/-- Configuration constant `MAX_SLEEP = 7200` (seconds) from the source. -/
def MAX_SLEEP : ℤ := 7200

/-- Configuration constant `STDEV_LIMIT = 5*1024*1024*1024` (bytes) from the source. -/
def STDEV_LIMIT : ℚ := 5 * 1024 * 1024 * 1024

/-- Structural helper for the Fibonacci-like sequence; `fib` below wraps it
to accept the arbitrary integer arguments the Python `fib` accepts. -/
def fibNat : ℕ → ℤ
  | 0 => 1
  | 1 => 1
  | n + 2 => fibNat n + fibNat (n + 1)

/-- `fib` from the source:
`def fib(n): if n < 2: return 1; return fib(n-2) + fib(n-1)`.
For `n < 2` (including negatives) the Python function returns 1, which
`Int.toNat` reproduces; the theorem `fib_def` below proves this definition
satisfies the source's defining equation verbatim.  The `lru_cache`
memoization is a performance device with no semantic content. -/
def fib (n : ℤ) : ℤ := fibNat n.toNat

/-- One device line parsed from `btrfs fi show --raw`: devid, size, used, path
(fields in the order the source reads them at lines 64-67). -/
structure Device where
  devid : String
  size : ℤ
  used : ℤ
  path : String
deriving DecidableEq

/-- `unallocated = size - used` (source line 69). -/
def unallocated (d : Device) : ℤ := d.size - d.used

/-- The device-selection loop of `bal_chunk` (source lines 56-75): scan the
snapshot keeping the device with strictly smaller `unallocated` than the
current best (initial best is `+inf`, modelled by the `none` accumulator). -/
def selectLeast (devs : List Device) : Option Device :=
  devs.foldl
    (fun acc d =>
      match acc with
      | none => some d
      | some e => if unallocated d < unallocated e then some d else some e)
    none

/-- The same scan once a first candidate exists; used to reason about
`selectLeast` by induction. -/
def selBest (e : Device) (l : List Device) : Device :=
  l.foldl (fun a d => if unallocated d < unallocated a then d else a) e

/-- Sample variance of a list of byte counts, exact rational arithmetic:
sum of squared deviations from the mean divided by `n - 1`.  This is the
square of what Python's `statistics.stdev` (sample standard deviation)
computes at source line 77.  Only consulted for lists of length ≥ 2; for
shorter lists the source raises `StatisticsError` instead. -/
def sampleVariance (xs : List ℤ) : ℚ :=
  let n : ℚ := xs.length
  let mean : ℚ := (xs.map (fun x => (x : ℚ))).sum / n
  ((xs.map (fun x => ((x : ℚ) - mean) ^ 2)).sum) / (n - 1)

/-- Sample standard deviation, `statistics.stdev`: the square root of the
sample variance, as a real number. -/
noncomputable def sampleStdev (xs : List ℤ) : ℝ :=
  Real.sqrt ((sampleVariance xs : ℚ) : ℝ)

/-- The convergence test of `bal_chunk` (source line 78):
`stdev < STDEV_LIMIT`.  Stated on the variance so that it is executable
over exact rationals; `convergedCheck_iff_stdev` proves it equivalent to
the source's strict comparison of the sample standard deviation against a
positive limit. -/
def convergedCheck (xs : List ℤ) (limit : ℚ) : Bool :=
  decide (sampleVariance xs < limit * limit)

/-- Outcome of one call to `bal_chunk` (source lines 56-93):
`statsError` models the uncaught `statistics.StatisticsError` raised when
fewer than two devices are reported; `convergedExit` models the
`sys.exit()` taken when the stdev is below the limit (balance not run);
`balanced dev failed` records that `btrfs balance start` ran against
`dev`, with `failed = true` when its exit status was non-zero (in which
case the source logs the output and sleeps 30 seconds before returning). -/
inductive ChunkOutcome
  | statsError
  | convergedExit
  | balanced (dev : Device) (failed : Bool)
deriving DecidableEq

/-- Whether the rebalance collaborator (`btrfs balance start`) was invoked. -/
def balanceInvoked : ChunkOutcome → Bool
  | ChunkOutcome.balanced _ _ => true
  | _ => false

/-- `bal_chunk` (source lines 56-93).  The snapshot `devs` and the balance
command's success are oracle inputs (`balFails = true` models a non-zero
exit status of `btrfs balance start`).  Control flow follows the source:
the selection scan runs first; `statistics.stdev` then raises when fewer
than two devices were parsed; otherwise the loop exits the process when
converged and only then invokes the balance. -/
def balChunk (devs : List Device) (limit : ℚ) (balFails : Bool) : ChunkOutcome :=
  match selectLeast devs with
  | none => ChunkOutcome.statsError
  | some d =>
    if devs.length < 2 then ChunkOutcome.statsError
    else if convergedCheck (devs.map unallocated) limit then ChunkOutcome.convergedExit
    else ChunkOutcome.balanced d balFails

/-- The backoff adjustment of the main loop (source lines 127-132):
slow chunk (`duration > chunkTimeout`): increment the index when
`fib(index+1) < maxSleep`; fast chunk: decrement by 2 when `index > 1`,
by 1 when `index > 0`, else leave at 0. -/
def backoffStep (chunkTimeout : ℚ) (maxSleep : ℤ) (duration : ℚ) (b : ℤ) : ℤ :=
  if duration > chunkTimeout then
    if fib (b + 1) < maxSleep then b + 1 else b
  else
    if b > 1 then b - 2
    else if b > 0 then b - 1
    else b

/-- The backoff index after a sequence of iteration durations, starting
from `backoff = 0` (source line 117). -/
def reachBackoff (chunkTimeout : ℚ) (maxSleep : ℤ) (durs : List ℚ) : ℤ :=
  durs.foldl (fun b dur => backoffStep chunkTimeout maxSleep dur b) 0

/-- Result of one iteration of the main `while True` loop (source lines
118-133): either the process exits with a code (`sys.exit()` in
`bal_chunk` gives 0; the uncaught `StatisticsError` gives Python's
exception exit code 1), or the loop continues with a new backoff index,
having slept `cooldown` seconds inside `bal_chunk` (30 on a failed
balance, else 0) and then `sleep = fib(newBackoff)` seconds in
`fib_sleep`. -/
inductive IterResult
  | exited (code : ℤ)
  | continued (backoff : ℤ) (cooldown : ℤ) (sleep : ℤ)
deriving DecidableEq

/-- The backoff index the loop carries into the next iteration, when it
continues. -/
def nextBackoff : IterResult → Option ℤ
  | IterResult.continued b _ _ => some b
  | _ => none

/-- One iteration of the main loop (source lines 118-133).  `duration` is
the measured wall-clock time of `bal_chunk` (an oracle input: it includes
the external balance call and the 30-second failure cooldown). -/
def loopIter (devs : List Device) (limit : ℚ) (balFails : Bool)
    (chunkTimeout : ℚ) (maxSleep : ℤ) (duration : ℚ) (b : ℤ) : IterResult :=
  match balChunk devs limit balFails with
  | ChunkOutcome.statsError => IterResult.exited 1
  | ChunkOutcome.convergedExit => IterResult.exited 0
  | ChunkOutcome.balanced _ failed =>
    let b2 := backoffStep chunkTimeout maxSleep duration b
    IterResult.continued b2 (if failed then 30 else 0) (fib b2)

/-- Two-device snapshot with unallocated bytes `[0, 40 GiB]`: far from
converged under the 5 GiB limit. -/
def devsSkewed : List Device :=
  [⟨"1", 42949672960, 42949672960, "/dev/sda"⟩,
   ⟨"2", 42949672960, 0, "/dev/sdb"⟩]

/-- Two-device snapshot with unallocated bytes `50 GB` and `50.0001 GB`
(rounded to whole bytes): well within the 5 GiB convergence limit. -/
def devsClose : List Device :=
  [⟨"1", 53687091200, 0, "/dev/sda"⟩,
   ⟨"2", 53687198574, 0, "/dev/sdb"⟩]

/-- Single-device snapshot: a configuration error for the dispersion test. -/
def devsSingle : List Device :=
  [⟨"1", 42949672960, 0, "/dev/sda"⟩]

/-- Two devices tied at the minimal unallocated space, to exercise the
first-in-order tie-break. -/
def devsTied : List Device :=
  [⟨"1", 10, 5, "/dev/sda"⟩, ⟨"2", 9, 4, "/dev/sdb"⟩]

/-! ## Basic facts about the Fibonacci-like sequence -/

/-- The embedding `fib` satisfies the source's defining equation verbatim:
`if n < 2: return 1; return fib(n-2) + fib(n-1)`. -/
theorem fib_def (n : ℤ) : fib n = if n < 2 then 1 else fib (n - 2) + fib (n - 1) := by
  by_cases h : n < 2
  · rw [if_pos h]
    unfold fib
    have h01 : n.toNat = 0 ∨ n.toNat = 1 := by omega
    rcases h01 with h0 | h1
    · rw [h0, fibNat]
    · rw [h1, fibNat]
  · rw [if_neg h]
    unfold fib
    have h2 : n.toNat = (n - 2).toNat + 2 := by omega
    have h1 : (n - 1).toNat = (n - 2).toNat + 1 := by omega
    rw [h2, h1, fibNat]

theorem one_le_fibNat (n : ℕ) : 1 ≤ fibNat n := by
  induction n using Nat.strong_induction_on with
  | _ n ih =>
    match n with
    | 0 => simp [fibNat]
    | 1 => simp [fibNat]
    | k + 2 =>
      have h1 := ih k (by omega)
      have h2 := ih (k + 1) (by omega)
      rw [fibNat]
      omega

theorem one_le_fib (n : ℤ) : 1 ≤ fib n := one_le_fibNat n.toNat

theorem fibNat_le_succ (n : ℕ) : fibNat n ≤ fibNat (n + 1) := by
  cases n with
  | zero => simp [fibNat]
  | succ k =>
    have h1 := one_le_fibNat k
    rw [show k + 1 + 1 = k + 2 from rfl, fibNat]
    omega

theorem fibNat_mono {a b : ℕ} (h : a ≤ b) : fibNat a ≤ fibNat b := by
  induction b, h using Nat.le_induction with
  | base => exact le_rfl
  | succ b _ ih => exact le_trans ih (fibNat_le_succ b)

theorem fib_mono {a b : ℤ} (h : a ≤ b) : fib a ≤ fib b :=
  fibNat_mono (Int.toNat_le_toNat h)

/-- Claim C5 (confirmed): the backoff sleep sequence satisfies
`seq(0) = seq(1) = 1` and `seq(n) = seq(n-1) + seq(n-2)` for all `n ≥ 2`,
exactly as the source's `fib` computes it. -/
theorem fib_recurrence :
    fib 0 = 1 ∧ fib 1 = 1 ∧ ∀ n : ℤ, 2 ≤ n → fib n = fib (n - 1) + fib (n - 2) := by
  refine ⟨rfl, rfl, ?_⟩
  intro n hn
  rw [fib_def n, if_neg (by omega)]
  exact add_comm _ _

/-- Witness for C5: the recurrence evaluated at `n = 2`. -/
theorem fib_recurrence_witness : fib 2 = fib 1 + fib 0 :=
  fib_recurrence.2.2 2 (by norm_num)

/-! ## Device selection -/

theorem foldl_selStep_some (l : List Device) : ∀ e : Device,
    l.foldl
      (fun acc d =>
        match acc with
        | none => some d
        | some e' => if unallocated d < unallocated e' then some d else some e')
      (some e) = some (selBest e l) := by
  induction l with
  | nil => intro e; rfl
  | cons d ds ih =>
    intro e
    by_cases h : unallocated d < unallocated e
    · show List.foldl _ (if unallocated d < unallocated e then some d else some e) ds = _
      rw [if_pos h, ih d]
      show _ = some (List.foldl _ (if unallocated d < unallocated e then d else e) ds)
      rw [if_pos h]
      rfl
    · show List.foldl _ (if unallocated d < unallocated e then some d else some e) ds = _
      rw [if_neg h, ih e]
      show _ = some (List.foldl _ (if unallocated d < unallocated e then d else e) ds)
      rw [if_neg h]
      rfl

theorem selectLeast_cons (d : Device) (ds : List Device) :
    selectLeast (d :: ds) = some (selBest d ds) :=
  foldl_selStep_some ds d

/-- The scan result is a minimal element, and everything strictly before it
in the list is strictly larger (so it is the first minimum). -/
theorem selBest_spec (l : List Device) : ∀ e : Device,
    (selBest e l = e ∧ ∀ d ∈ l, unallocated e ≤ unallocated d)
    ∨ ∃ i : Fin l.length,
        selBest e l = l.get i
        ∧ unallocated (l.get i) < unallocated e
        ∧ (∀ d ∈ l, unallocated (l.get i) ≤ unallocated d)
        ∧ ∀ j : Fin l.length, (j : ℕ) < (i : ℕ) → unallocated (l.get i) < unallocated (l.get j) := by
  induction l with
  | nil =>
    intro e
    left
    exact ⟨rfl, by simp⟩
  | cons d ds ih =>
    intro e
    have hsb : selBest e (d :: ds) = selBest (if unallocated d < unallocated e then d else e) ds := rfl
    by_cases hde : unallocated d < unallocated e
    · rw [hsb, if_pos hde]
      rcases ih d with ⟨heq, hmin⟩ | ⟨i, heq, hlt, hmin, hfirst⟩
      · right
        refine ⟨⟨0, by simp⟩, heq, hde, ?_, ?_⟩
        · intro d' hd'
          rcases List.mem_cons.mp hd' with rfl | hd'
          · exact le_rfl
          · exact hmin d' hd'
        · intro j hj
          exact absurd hj (Nat.not_lt_zero _)
      · right
        refine ⟨⟨(i : ℕ) + 1, by simp⟩, heq, lt_trans hlt hde, ?_, ?_⟩
        · intro d' hd'
          rcases List.mem_cons.mp hd' with rfl | hd'
          · exact le_of_lt hlt
          · exact hmin d' hd'
        · intro j hj
          rcases j with ⟨jv, hjv⟩
          cases jv with
          | zero => exact hlt
          | succ k =>
            exact hfirst ⟨k, by simp at hjv; omega⟩ (by exact Nat.lt_of_succ_lt_succ hj)
    · rw [hsb, if_neg hde]
      have hed : unallocated e ≤ unallocated d := le_of_not_lt hde
      rcases ih e with ⟨heq, hmin⟩ | ⟨i, heq, hlt, hmin, hfirst⟩
      · left
        refine ⟨heq, ?_⟩
        intro d' hd'
        rcases List.mem_cons.mp hd' with rfl | hd'
        · exact hed
        · exact hmin d' hd'
      · right
        refine ⟨⟨(i : ℕ) + 1, by simp⟩, heq, hlt, ?_, ?_⟩
        · intro d' hd'
          rcases List.mem_cons.mp hd' with rfl | hd'
          · exact le_of_lt (lt_of_lt_of_le hlt hed)
          · exact hmin d' hd'
        · intro j hj
          rcases j with ⟨jv, hjv⟩
          cases jv with
          | zero => exact lt_of_lt_of_le hlt hed
          | succ k =>
            exact hfirst ⟨k, by simp at hjv; omega⟩ (by exact Nat.lt_of_succ_lt_succ hj)

/-- Claim C6 (confirmed): on every non-empty snapshot, the selection scan of
`bal_chunk` returns a device of the snapshot holding the globally minimal
`unallocated` value, and every device strictly earlier in snapshot order has
strictly more unallocated space — i.e. it returns the first device attaining
the minimum.  Determinism is immediate: `selectLeast` is a pure function of
the snapshot. -/
theorem selectLeast_min_first (l : List Device) (h : l ≠ []) :
    ∃ i : Fin l.length,
      selectLeast l = some (l.get i)
      ∧ (∀ d ∈ l, unallocated (l.get i) ≤ unallocated d)
      ∧ ∀ j : Fin l.length, (j : ℕ) < (i : ℕ) → unallocated (l.get i) < unallocated (l.get j) := by
  match l with
  | d :: ds =>
    rw [selectLeast_cons]
    rcases selBest_spec ds d with ⟨heq, hmin⟩ | ⟨i, heq, hlt, hmin, hfirst⟩
    · refine ⟨⟨0, by simp⟩, by rw [heq]; rfl, ?_, ?_⟩
      · intro d' hd'
        rcases List.mem_cons.mp hd' with rfl | hd'
        · exact le_rfl
        · exact hmin d' hd'
      · intro j hj
        exact absurd hj (Nat.not_lt_zero _)
    · refine ⟨⟨(i : ℕ) + 1, by simp⟩, by rw [heq]; rfl, ?_, ?_⟩
      · intro d' hd'
        rcases List.mem_cons.mp hd' with rfl | hd'
        · exact le_of_lt hlt
        · exact hmin d' hd'
      · intro j hj
        rcases j with ⟨jv, hjv⟩
        cases jv with
        | zero => exact hlt
        | succ k =>
          exact hfirst ⟨k, by simp at hjv; omega⟩ (by exact Nat.lt_of_succ_lt_succ hj)

/-- Witness for C6: on two devices tied at 5 unallocated bytes, the first
one (in snapshot order) is selected. -/
theorem selectLeast_min_first_witness :
    selectLeast devsTied = some ⟨"1", 10, 5, "/dev/sda"⟩ := by
  obtain ⟨⟨iv, hiv⟩, h1, _, h3⟩ := selectLeast_min_first devsTied (by simp [devsTied])
  have hiv2 : iv = 0 ∨ iv = 1 := by
    simp [devsTied] at hiv
    omega
  rcases hiv2 with rfl | rfl
  · exact h1
  · exfalso
    have hcon := h3 ⟨0, by simp [devsTied]⟩ (by norm_num)
    simp [devsTied, unallocated] at hcon

/-! ## Dispersion: the convergence test -/

/-- The executable variance test is exactly the source's strict comparison
of the sample standard deviation against a positive limit. -/
theorem convergedCheck_iff_stdev (xs : List ℤ) (limit : ℚ) (h : 0 < limit) :
    convergedCheck xs limit = true ↔ sampleStdev xs < (limit : ℝ) := by
  unfold convergedCheck sampleStdev
  rw [decide_eq_true_eq, Real.sqrt_lt' (by exact_mod_cast h),
    show ((limit : ℝ)) ^ 2 = ((limit * limit : ℚ) : ℝ) from by push_cast; ring,
    Rat.cast_lt]

theorem sampleVariance_skewed :
    sampleVariance (devsSkewed.map unallocated) = 800 * 2 ^ 60 := by
  norm_num [sampleVariance, devsSkewed, unallocated]

theorem sampleVariance_close :
    sampleVariance (devsClose.map unallocated) = 5764587938 := by
  norm_num [sampleVariance, devsClose, unallocated]

theorem sampleVariance_forty :
    sampleVariance [0, 0, 40 * 2 ^ 30] = 1600 * 2 ^ 60 / 3 := by
  norm_num [sampleVariance]

theorem sampleVariance_equal_triple :
    sampleVariance [10 * 2 ^ 30, 10 * 2 ^ 30, 10 * 2 ^ 30] = 0 := by
  norm_num [sampleVariance]

/-- The nearly-equal two-device snapshot is converged: its sample standard
deviation (≈ 75.9 KB) is below the 5 GiB limit. -/
theorem sampleStdev_close_lt :
    sampleStdev (devsClose.map unallocated) < ((STDEV_LIMIT : ℚ) : ℝ) := by
  unfold sampleStdev
  rw [sampleVariance_close, Real.sqrt_lt' (by norm_num [STDEV_LIMIT])]
  push_cast
  norm_num [STDEV_LIMIT]

/-- Claim C3 counterexample: the claim puts the sample standard deviation of
`[0GB, 0GB, 40GB]` at approximately 18.86 GB, but it exceeds 19 GB (it is
≈ 23.09 GB; 18.86 GB is the population standard deviation, while
`statistics.stdev` at source line 77 computes the sample standard
deviation).  The claim's verdict — not converged under a 5 GB threshold —
still holds, see `converged_iff_sample_stdev`. -/
theorem stdev_forty_not_18_86_cex :
    (19 : ℝ) * 2 ^ 30 < sampleStdev [0, 0, 40 * 2 ^ 30] := by
  unfold sampleStdev
  rw [sampleVariance_forty, Real.lt_sqrt (by positivity)]
  push_cast
  norm_num

/-- Claim C3 (corrected): `converged` is true iff the sample standard
deviation of `unallocatedBytes` is strictly less than the threshold;
`[10GB, 10GB, 10GB]` has stdev 0 and converges under any positive
threshold; `[0GB, 0GB, 40GB]` has sample stdev ≈ 23.09 GB (between
23.09 GB and 23.10 GB — not the claimed 18.86 GB) and does not converge
under the source's 5 GiB limit. -/
theorem converged_iff_sample_stdev :
    (∀ (xs : List ℤ) (limit : ℚ), 0 < limit →
        (convergedCheck xs limit = true ↔ sampleStdev xs < (limit : ℝ)))
    ∧ (∀ limit : ℚ, 0 < limit →
        convergedCheck [10 * 2 ^ 30, 10 * 2 ^ 30, 10 * 2 ^ 30] limit = true)
    ∧ ((2309 / 100 : ℝ) * 2 ^ 30 < sampleStdev [0, 0, 40 * 2 ^ 30]
        ∧ sampleStdev [0, 0, 40 * 2 ^ 30] < (231 / 10 : ℝ) * 2 ^ 30)
    ∧ convergedCheck [0, 0, 40 * 2 ^ 30] STDEV_LIMIT = false := by
  refine ⟨convergedCheck_iff_stdev, ?_, ⟨?_, ?_⟩, ?_⟩
  · intro limit hl
    unfold convergedCheck
    rw [decide_eq_true_eq, sampleVariance_equal_triple]
    positivity
  · unfold sampleStdev
    rw [sampleVariance_forty, Real.lt_sqrt (by positivity)]
    push_cast
    norm_num
  · unfold sampleStdev
    rw [sampleVariance_forty, Real.sqrt_lt' (by positivity)]
    push_cast
    norm_num
  · unfold convergedCheck
    rw [decide_eq_false_iff_not, sampleVariance_forty]
    norm_num [STDEV_LIMIT]

/-- Witness for C3: the convergence test evaluated on the two concrete
snapshots of the claim (threshold 5 GiB). -/
theorem converged_iff_sample_stdev_witness :
    convergedCheck [10 * 2 ^ 30, 10 * 2 ^ 30, 10 * 2 ^ 30] STDEV_LIMIT = true
    ∧ convergedCheck [0, 0, 40 * 2 ^ 30] STDEV_LIMIT = false :=
  ⟨converged_iff_sample_stdev.2.1 STDEV_LIMIT (by norm_num [STDEV_LIMIT]),
   converged_iff_sample_stdev.2.2.2⟩

/-! ## One `bal_chunk` call and one loop iteration -/

theorem convergedCheck_skewed_false :
    convergedCheck (devsSkewed.map unallocated) STDEV_LIMIT = false := by
  unfold convergedCheck
  rw [decide_eq_false_iff_not, sampleVariance_skewed]
  norm_num [STDEV_LIMIT]

/-- On the skewed snapshot `bal_chunk` does not converge and invokes the
balance on the first device (the one with 0 unallocated bytes). -/
theorem balChunk_skewed (f : Bool) :
    balChunk devsSkewed STDEV_LIMIT f =
      ChunkOutcome.balanced ⟨"1", 42949672960, 42949672960, "/dev/sda"⟩ f := by
  have hsel : selectLeast devsSkewed = some ⟨"1", 42949672960, 42949672960, "/dev/sda"⟩ := by
    norm_num [selectLeast, devsSkewed, unallocated, List.foldl]
  unfold balChunk
  rw [hsel, convergedCheck_skewed_false]
  rfl

/-- A fast (31 s ≤ 60 s) failed iteration on the skewed snapshot at backoff
index 1: the index is still updated by the duration rule, dropping to 0. -/
theorem loopIter_skewed_failure :
    loopIter devsSkewed STDEV_LIMIT true CHUNK_TIMEOUT MAX_SLEEP 31 1 =
      IterResult.continued 0 30 1 := by
  unfold loopIter
  rw [balChunk_skewed true]
  have hstep : backoffStep CHUNK_TIMEOUT MAX_SLEEP 31 1 = 0 := by
    unfold backoffStep
    rw [if_neg (by norm_num [CHUNK_TIMEOUT]), if_neg (by norm_num), if_pos (by norm_num)]
    norm_num
  simp only [hstep]
  rfl

/-- A fast successful iteration on the skewed snapshot at backoff index 0:
the loop continues with index 0, no cooldown, and a 1-second sleep. -/
theorem loopIter_skewed_fast :
    loopIter devsSkewed STDEV_LIMIT false CHUNK_TIMEOUT MAX_SLEEP 31 0 =
      IterResult.continued 0 0 1 := by
  unfold loopIter
  rw [balChunk_skewed false]
  have hstep : backoffStep CHUNK_TIMEOUT MAX_SLEEP 31 0 = 0 := by
    unfold backoffStep
    rw [if_neg (by norm_num [CHUNK_TIMEOUT]), if_neg (by norm_num), if_neg (by norm_num)]
  simp only [hstep]
  rfl

/-- Claim C1 counterexample: from the reachable loop state with backoff
index 1 (one slow chunk after start), a Failure outcome (non-zero balance
exit status, 31-second duration) does NOT leave the backoff index
unchanged: the main loop's duration-based update runs regardless of the
outcome (source lines 127-132 execute after `bal_chunk` returns from its
failure path at lines 89-91), and the index drops from 1 to 0. -/
theorem failure_changes_backoff_cex :
    reachBackoff CHUNK_TIMEOUT MAX_SLEEP [61] = 1
    ∧ nextBackoff (loopIter devsSkewed STDEV_LIMIT true CHUNK_TIMEOUT MAX_SLEEP 31 1) = some 0
    ∧ (0 : ℤ) ≠ 1 := by
  refine ⟨?_, ?_, by norm_num⟩
  · unfold reachBackoff backoffStep
    rw [List.foldl_cons, List.foldl_nil, if_pos (by norm_num [CHUNK_TIMEOUT]),
      if_pos (by decide)]
    norm_num
  · rw [loopIter_skewed_failure]
    rfl

/-- Claim C1 (corrected): when the rebalance unit's outcome is Failure, the
code logs the diagnostic and sleeps a fixed 30-second cooldown inside
`bal_chunk`, but the loop does NOT skip the Backoff State update: it then
updates the backoff index by the same duration-based rule as on success
and performs the adaptive sleep `fib(index)` as well. -/
theorem failure_outcome_backoff_update :
    ∀ (devs : List Device) (limit : ℚ) (chunkTimeout : ℚ) (maxSleep : ℤ)
      (duration : ℚ) (b : ℤ) (d : Device),
      balChunk devs limit true = ChunkOutcome.balanced d true →
      loopIter devs limit true chunkTimeout maxSleep duration b =
        IterResult.continued (backoffStep chunkTimeout maxSleep duration b) 30
          (fib (backoffStep chunkTimeout maxSleep duration b)) := by
  intro devs limit t m dur b d h
  unfold loopIter
  rw [h]
  rfl

/-- Witness for C1: the failure iteration on the skewed snapshot follows
the duration-based update rule. -/
theorem failure_outcome_backoff_update_witness :
    loopIter devsSkewed STDEV_LIMIT true CHUNK_TIMEOUT MAX_SLEEP 31 1 =
      IterResult.continued (backoffStep CHUNK_TIMEOUT MAX_SLEEP 31 1) 30
        (fib (backoffStep CHUNK_TIMEOUT MAX_SLEEP 31 1)) :=
  failure_outcome_backoff_update devsSkewed STDEV_LIMIT CHUNK_TIMEOUT MAX_SLEEP 31 1 _
    (balChunk_skewed true)

/-- Claim C7 (confirmed): with fewer than two devices the dispersion
computation fails — `statistics.stdev` raises `StatisticsError` (the
spec's `InsufficientSamplesError`) — instead of returning a boolean, the
exception is not caught anywhere, and the process exits non-zero (Python's
uncaught-exception exit code 1). -/
theorem insufficient_devices_error :
    ∀ (devs : List Device) (limit : ℚ) (f : Bool) (chunkTimeout : ℚ)
      (maxSleep : ℤ) (duration : ℚ) (b : ℤ),
      devs.length < 2 →
      balChunk devs limit f = ChunkOutcome.statsError
      ∧ loopIter devs limit f chunkTimeout maxSleep duration b = IterResult.exited 1
      ∧ (1 : ℤ) ≠ 0 := by
  intro devs limit f t m dur b hlen
  have hbc : balChunk devs limit f = ChunkOutcome.statsError := by
    rcases devs with _ | ⟨d, ds⟩
    · rfl
    · rcases ds with _ | ⟨e, es⟩
      · unfold balChunk
        rw [selectLeast_cons]
        rfl
      · exfalso
        simp at hlen
        omega
  refine ⟨hbc, ?_, by norm_num⟩
  unfold loopIter
  rw [hbc]

/-- Witness for C7: the single-device snapshot. -/
theorem insufficient_devices_error_witness :
    balChunk devsSingle STDEV_LIMIT false = ChunkOutcome.statsError
    ∧ loopIter devsSingle STDEV_LIMIT false CHUNK_TIMEOUT MAX_SLEEP 10 0 = IterResult.exited 1
    ∧ (1 : ℤ) ≠ 0 :=
  insufficient_devices_error devsSingle STDEV_LIMIT false CHUNK_TIMEOUT MAX_SLEEP 10 0
    (by simp [devsSingle])

/-- Claim C8 (confirmed): on any snapshot of at least two devices whose
sample standard deviation of unallocated bytes is strictly below the
(positive) threshold, `bal_chunk` takes the `sys.exit()` branch: the
process terminates with exit code 0 and `btrfs balance start` is never
invoked in that iteration. -/
theorem converged_terminates_no_balance :
    ∀ (devs : List Device) (limit : ℚ) (balFails : Bool) (chunkTimeout : ℚ)
      (maxSleep : ℤ) (duration : ℚ) (b : ℤ),
      2 ≤ devs.length → 0 < limit →
      sampleStdev (devs.map unallocated) < (limit : ℝ) →
      balChunk devs limit balFails = ChunkOutcome.convergedExit
      ∧ balanceInvoked (balChunk devs limit balFails) = false
      ∧ loopIter devs limit balFails chunkTimeout maxSleep duration b = IterResult.exited 0 := by
  intro devs limit f t m dur b hlen hlim hstdev
  have hconv : convergedCheck (devs.map unallocated) limit = true :=
    (convergedCheck_iff_stdev _ _ hlim).mpr hstdev
  have hbc : balChunk devs limit f = ChunkOutcome.convergedExit := by
    rcases devs with _ | ⟨d, ds⟩
    · simp at hlen
    · have hl2 : ¬ (d :: ds).length < 2 := by omega
      unfold balChunk
      rw [selectLeast_cons]
      show (if (d :: ds).length < 2 then ChunkOutcome.statsError
        else if convergedCheck ((d :: ds).map unallocated) limit then ChunkOutcome.convergedExit
        else ChunkOutcome.balanced (selBest d ds) f) = ChunkOutcome.convergedExit
      rw [if_neg hl2, hconv]
      rfl
  refine ⟨hbc, ?_, ?_⟩
  · rw [hbc]
    rfl
  · unfold loopIter
    rw [hbc]

/-- Witness for C8: the two-device snapshot with unallocated bytes 50 GB
and ≈ 50.0001 GB under the 5 GiB limit. -/
theorem converged_terminates_no_balance_witness :
    balChunk devsClose STDEV_LIMIT false = ChunkOutcome.convergedExit
    ∧ balanceInvoked (balChunk devsClose STDEV_LIMIT false) = false
    ∧ loopIter devsClose STDEV_LIMIT false CHUNK_TIMEOUT MAX_SLEEP 31 0 = IterResult.exited 0 :=
  converged_terminates_no_balance devsClose STDEV_LIMIT false CHUNK_TIMEOUT MAX_SLEEP 31 0
    (by simp [devsClose]) (by norm_num [STDEV_LIMIT]) sampleStdev_close_lt

/-! ## The backoff policy -/

theorem backoffStep_nonneg (t : ℚ) (m : ℤ) (dur : ℚ) (b : ℤ) (hb : 0 ≤ b) :
    0 ≤ backoffStep t m dur b := by
  unfold backoffStep
  split_ifs <;> omega

theorem backoffStep_fib_lt (t : ℚ) (m : ℤ) (dur : ℚ) (b : ℤ)
    (_hb : 0 ≤ b) (hf : fib b < m) : fib (backoffStep t m dur b) < m := by
  unfold backoffStep
  split_ifs with h1 h2 h3 h4
  · exact h2
  · exact hf
  · exact lt_of_le_of_lt (fib_mono (by omega)) hf
  · exact lt_of_le_of_lt (fib_mono (by omega)) hf
  · exact hf

theorem reach_nonneg_aux (t : ℚ) (m : ℤ) :
    ∀ (durs : List ℚ) (b : ℤ), 0 ≤ b →
      0 ≤ List.foldl (fun b' dur => backoffStep t m dur b') b durs := by
  intro durs
  induction durs with
  | nil => intro b hb; exact hb
  | cons d ds ih =>
    intro b hb
    rw [List.foldl_cons]
    exact ih _ (backoffStep_nonneg t m d b hb)

theorem reach_inv_aux (t : ℚ) (m : ℤ) :
    ∀ (durs : List ℚ) (b : ℤ), 0 ≤ b → fib b < m →
      0 ≤ List.foldl (fun b' dur => backoffStep t m dur b') b durs
      ∧ fib (List.foldl (fun b' dur => backoffStep t m dur b') b durs) < m := by
  intro durs
  induction durs with
  | nil => intro b hb hf; exact ⟨hb, hf⟩
  | cons d ds ih =>
    intro b hb hf
    rw [List.foldl_cons]
    exact ih _ (backoffStep_nonneg t m d b hb) (backoffStep_fib_lt t m d b hb hf)

/-- Claim C9 (confirmed): provided `maxSleep > 1`, every backoff index
reachable from the start index 0 satisfies `fib(index) < maxSleep`, so the
adaptive sleep `fib(index)` performed after each successful iteration is
always strictly below the configured maximum (the increment guard tests
`fib(index+1)` before incrementing, and `fib(0) = 1 < maxSleep`). -/
theorem reachable_backoff_sleep_lt_max :
    ∀ (chunkTimeout : ℚ) (maxSleep : ℤ), 1 < maxSleep → ∀ durs : List ℚ,
      0 ≤ reachBackoff chunkTimeout maxSleep durs
      ∧ fib (reachBackoff chunkTimeout maxSleep durs) < maxSleep := by
  intro t m hm durs
  exact reach_inv_aux t m durs 0 le_rfl (by
    show fib 0 < m
    rw [show fib 0 = 1 from rfl]
    exact hm)

/-- Witness for C9: the source's configuration, one slow then one fast
iteration. -/
theorem reachable_backoff_sleep_lt_max_witness :
    0 ≤ reachBackoff CHUNK_TIMEOUT MAX_SLEEP [61, 59]
    ∧ fib (reachBackoff CHUNK_TIMEOUT MAX_SLEEP [61, 59]) < MAX_SLEEP :=
  reachable_backoff_sleep_lt_max CHUNK_TIMEOUT MAX_SLEEP (by norm_num [MAX_SLEEP]) [61, 59]

/-- A slow iteration (61 s > 60 s) below the cap increments the index. -/
theorem backoffStep_slow (b : ℤ) (h : fib (b + 1) < MAX_SLEEP) :
    backoffStep CHUNK_TIMEOUT MAX_SLEEP 61 b = b + 1 := by
  unfold backoffStep
  rw [if_pos (by norm_num [CHUNK_TIMEOUT]), if_pos h]

/-- After `n ≤ 19` consecutive slow iterations from the start the backoff
index is exactly `n` (with the source's configuration the guard
`fib(index+1) < 7200` holds up to index 18, since `fib(19) = 6765`). -/
theorem reach_replicate_slow : ∀ n : ℕ, n ≤ 19 →
    reachBackoff CHUNK_TIMEOUT MAX_SLEEP (List.replicate n 61) = n := by
  intro n
  induction n with
  | zero => intro _; rfl
  | succ k ih =>
    intro hk
    have hkr := ih (by omega)
    unfold reachBackoff at hkr ⊢
    rw [List.replicate_succ', List.foldl_append, hkr, List.foldl_cons, List.foldl_nil]
    have hfib : fib ((k : ℤ) + 1) < MAX_SLEEP := by
      have h1 : fib ((k : ℤ) + 1) ≤ fib 19 := fib_mono (by omega)
      have h2 : fib 19 = 6765 := by decide
      unfold MAX_SLEEP
      omega
    rw [backoffStep_slow _ hfib]
    push_cast
    ring

/-- Claim C2 counterexample: with the source's configuration
(`MAX_SLEEP = 7200`) a run of 19 consecutive slow outcomes from index 0
drives the backoff index up to 19 — the 19th slow outcome increases it
from 18 to 19 — and 19 is a value `i` with `fib(i+1) = 10946 ≥ maxSleep`.
So the index does increase to a value `i` for which
`seq(i+1) ≥ maxSleep`, refuting the claim as stated (the guard bounds
`fib` of the new index itself, not of its successor). -/
theorem backoff_guard_boundary_cex :
    reachBackoff CHUNK_TIMEOUT MAX_SLEEP (List.replicate 18 61) = 18
    ∧ reachBackoff CHUNK_TIMEOUT MAX_SLEEP (List.replicate 19 61) = 19
    ∧ MAX_SLEEP ≤ fib (19 + 1) :=
  ⟨reach_replicate_slow 18 (by omega), reach_replicate_slow 19 (by omega), by decide⟩

/-- Claim C2 (corrected): for every sequence of outcomes starting from
index 0, the backoff index never decreases below 0, and it never increases
to a value `i` for which `seq(i) ≥ maxSleep` (the increment guard at
source line 128 tests `fib(backoff + 1)`, which is `fib` of the value
being increased to; the claim's `seq(i+1)` is off by one at the cap). -/
theorem backoff_nonneg_and_increase_bound :
    ∀ (chunkTimeout : ℚ) (maxSleep : ℤ) (durs : List ℚ) (dur : ℚ),
      0 ≤ reachBackoff chunkTimeout maxSleep durs
      ∧ (reachBackoff chunkTimeout maxSleep durs
            < backoffStep chunkTimeout maxSleep dur (reachBackoff chunkTimeout maxSleep durs) →
          fib (backoffStep chunkTimeout maxSleep dur (reachBackoff chunkTimeout maxSleep durs))
            < maxSleep) := by
  intro t m durs dur
  refine ⟨reach_nonneg_aux t m durs 0 le_rfl, ?_⟩
  generalize reachBackoff t m durs = b
  intro hinc
  unfold backoffStep at hinc ⊢
  split_ifs at hinc ⊢ with h1 h2 h3 h4
  · exact h2
  · omega
  · omega
  · omega
  · omega

/-- Witness for C2: from the start state a slow outcome increases the index
to 1, and `fib(1) = 1 < 7200`. -/
theorem backoff_nonneg_and_increase_bound_witness :
    0 ≤ reachBackoff CHUNK_TIMEOUT MAX_SLEEP []
    ∧ fib (backoffStep CHUNK_TIMEOUT MAX_SLEEP 61 (reachBackoff CHUNK_TIMEOUT MAX_SLEEP []))
        < MAX_SLEEP :=
  ⟨(backoff_nonneg_and_increase_bound CHUNK_TIMEOUT MAX_SLEEP [] 61).1,
   (backoff_nonneg_and_increase_bound CHUNK_TIMEOUT MAX_SLEEP [] 61).2 (by
      show reachBackoff CHUNK_TIMEOUT MAX_SLEEP []
        < backoffStep CHUNK_TIMEOUT MAX_SLEEP 61 (reachBackoff CHUNK_TIMEOUT MAX_SLEEP [])
      rw [show reachBackoff CHUNK_TIMEOUT MAX_SLEEP [] = 0 from rfl,
        backoffStep_slow 0 (by decide)]
      norm_num)⟩

/-- Claim C4 (confirmed): the backoff transition is monotone per outcome
class — a slow outcome (`duration > chunkTimeout`) never decreases the
index and holds it steady once `fib(index+1) ≥ maxSleep` (the cap); a fast
outcome decreases it by 2 when `index > 1`, by 1 when `index = 1`, and
keeps it at 0 when `index = 0`. -/
theorem backoffStep_monotone_cases :
    ∀ (chunkTimeout : ℚ) (maxSleep : ℤ) (dur : ℚ) (b : ℤ),
      (0 ≤ b → chunkTimeout < dur → b ≤ backoffStep chunkTimeout maxSleep dur b)
      ∧ (chunkTimeout < dur → maxSleep ≤ fib (b + 1) →
          backoffStep chunkTimeout maxSleep dur b = b)
      ∧ (dur ≤ chunkTimeout → 1 < b → backoffStep chunkTimeout maxSleep dur b = b - 2)
      ∧ (dur ≤ chunkTimeout → b = 1 → backoffStep chunkTimeout maxSleep dur b = 0)
      ∧ (dur ≤ chunkTimeout → b = 0 → backoffStep chunkTimeout maxSleep dur b = 0) := by
  intro t m dur b
  unfold backoffStep
  refine ⟨?_, ?_, ?_, ?_, ?_⟩ <;> intro h1 h2 <;>
    split_ifs with h3 h4 <;> first | omega | linarith

/-- Witness for C4: each transition case at a concrete state with the
source's configuration (`fib(2) = 2` for the cap case with `maxSleep = 2`). -/
theorem backoffStep_monotone_cases_witness :
    (5 : ℤ) ≤ backoffStep 60 7200 61 5
    ∧ backoffStep 60 2 61 1 = 1
    ∧ backoffStep 60 7200 59 5 = 3
    ∧ backoffStep 60 7200 59 1 = 0
    ∧ backoffStep 60 7200 59 0 = 0 :=
  ⟨(backoffStep_monotone_cases 60 7200 61 5).1 (by norm_num) (by norm_num),
   (backoffStep_monotone_cases 60 2 61 1).2.1 (by norm_num) (by decide),
   (backoffStep_monotone_cases 60 7200 59 5).2.2.1 (by norm_num) (by norm_num),
   (backoffStep_monotone_cases 60 7200 59 1).2.2.2.1 (by norm_num) rfl,
   (backoffStep_monotone_cases 60 7200 59 0).2.2.2.2 (by norm_num) rfl⟩

/-- Claim C10 (confirmed): `fib(n) = 1` for every `n ≤ 1` (including the
start index 0), and every continuing loop iteration sleeps
`fib(newIndex) ≥ 1` second in `fib_sleep` — the scheduler never issues
back-to-back rebalance units with zero delay. -/
theorem sleep_at_least_one_second :
    (∀ n : ℤ, n ≤ 1 → fib n = 1)
    ∧ ∀ (devs : List Device) (limit : ℚ) (f : Bool) (chunkTimeout : ℚ)
        (maxSleep : ℤ) (duration : ℚ) (b b2 cd s : ℤ),
        loopIter devs limit f chunkTimeout maxSleep duration b =
          IterResult.continued b2 cd s → 1 ≤ s := by
  constructor
  · intro n hn
    unfold fib
    have h01 : n.toNat = 0 ∨ n.toNat = 1 := by omega
    rcases h01 with h | h <;> rw [h, fibNat]
  · intro devs limit f t m dur b b2 cd s h
    unfold loopIter at h
    rcases hbc : balChunk devs limit f with _ | _ | ⟨d, failed⟩ <;> rw [hbc] at h <;>
      simp at h
    obtain ⟨-, -, h3⟩ := h
    rw [← h3]
    exact one_le_fib _

/-- Witness for C10: the fast successful iteration on the skewed snapshot
sleeps exactly `fib(0) = 1` second. -/
theorem sleep_at_least_one_second_witness : fib 1 = 1 ∧ (1 : ℤ) ≤ 1 :=
  ⟨sleep_at_least_one_second.1 1 le_rfl,
   sleep_at_least_one_second.2 devsSkewed STDEV_LIMIT false CHUNK_TIMEOUT MAX_SLEEP 31 0 0 0 1
     loopIter_skewed_fast⟩

end SmrBalance
